import Mathlib

/-!
Verification of the Moderation Relay Service (`src/app.py`, `src/main.py`):
a Flask application exposing `POST /contenttextsafety`, which validates the
request body, reads Azure Content Safety credentials from the environment,
performs one outbound moderation call, normalizes the per-category results
and translates failures to JSON error responses.

The development below is a shallow embedding of that code.  Request bodies
and response bodies are JSON-like Python values (`PyVal`); the outcome of
the single outbound call is an explicit parameter (`ServiceOutcome`); the
environment is a record of the two optional configuration strings.  Python
exceptions are modelled as values (`PyExc`) threaded through `Except`, and
each handler is a total Lean function returning the HTTP response together
with a flag recording whether the outbound call was issued.
-/

set_option autoImplicit false

namespace ModerationRelay

/-- JSON-like Python values: everything `request.get_json()` can produce and
every dictionary the handlers build (`jsonify` serializes these verbatim). -/
inductive PyVal where
  | none
  | bool (b : Bool)
  | int (n : Int)
  | str (s : String)
  | list (xs : List PyVal)
  | dict (entries : List (String × PyVal))

/-- Python truthiness (`bool(v)`) of a JSON-like value: `None`, `False`, `0`,
the empty string, the empty list and the empty dict are falsy.  Used by the
guard `if not request_data` at src/app.py:100. -/
def pyTruthy : PyVal → Bool
  | .none => false
  | .bool b => b
  | .int n => n != 0
  | .str s => !s.isEmpty
  | .list xs => !xs.isEmpty
  | .dict es => !es.isEmpty

/-- Helper for Python substring search: does `hay` start with `needle`? -/
def charsStartWith : List Char → List Char → Bool
  | [], _ => true
  | _ :: _, [] => false
  | n :: ns, h :: hs => n == h && charsStartWith ns hs

/-- Does `needle` occur contiguously inside `hay`? -/
def charsContain : List Char → List Char → Bool
  | [], needle => needle.isEmpty
  | h :: hs, needle => charsStartWith needle (h :: hs) || charsContain hs needle

/-- Python substring membership `needle in hay` for strings. -/
def pyStrContains (hay needle : String) : Bool :=
  charsContain hay.data needle.data

/-- Python membership `key in v` (the test `'text' not in request_data` at
src/app.py:100): key membership on dicts, element equality on lists,
substring search on strings; a `TypeError` (modelled as `Except.error`
carrying the message, quotes elided) on non-iterable values. -/
def pyContainsStr (v : PyVal) (key : String) : Except String Bool :=
  match v with
  | .dict es => .ok (es.any (fun p => p.1 == key))
  | .list xs =>
    .ok (xs.any (fun x => match x with | .str s => s == key | _ => false))
  | .str s => .ok (pyStrContains s key)
  | .none => .error "argument of type NoneType is not iterable"
  | .bool _ => .error "argument of type bool is not iterable"
  | .int _ => .error "argument of type int is not iterable"

/-- Python subscription `v[key]` with a string key (src/app.py:103):
lookup on dicts (`KeyError` when absent), `TypeError` on anything else. -/
def pySubscriptStr (v : PyVal) (key : String) : Except String PyVal :=
  match v with
  | .dict es =>
    match es.lookup key with
    | some x => .ok x
    | Option.none => .error ("KeyError: " ++ key)
  | .str _ => .error "string indices must be integers"
  | .list _ => .error "list indices must be integers or slices, not str"
  | .none => .error "NoneType object is not subscriptable"
  | .bool _ => .error "bool object is not subscriptable"
  | .int _ => .error "int object is not subscriptable"

/-- Key lookup inside a JSON object value (used to state properties of
response bodies). -/
def PyVal.lookupKey : PyVal → String → Option PyVal
  | .dict es, k => es.lookup k
  | _, _ => Option.none

/-- The process environment as the moderation path reads it:
`os.environ.get` yields `none` for an unset variable. -/
structure Env where
  CONTENT_SAFETY_KEY : Option String
  CONTENT_SAFETY_ENDPOINT : Option String

/-- Truthiness of an `os.environ.get` result (the guard
`if not key or not endpoint` at src/app.py:42): unset and empty are falsy. -/
def envTruthy : Option String → Bool
  | Option.none => false
  | some s => !s.isEmpty

/-- One entry of the raw `response.categories_analysis` list: a category
identifier (the `TextCategory` string enum values) and the optional integer
severity (`severity` is `Optional[int]` in the SDK model). -/
structure CategoryEntry where
  category : String
  severity : Option Int

/-- Value of `azure.ai.contentsafety.models.TextCategory.HATE`. -/
def TextCategory.HATE : String := "Hate"

/-- Value of `TextCategory.SELF_HARM`. -/
def TextCategory.SELF_HARM : String := "SelfHarm"

/-- Value of `TextCategory.SEXUAL`. -/
def TextCategory.SEXUAL : String := "Sexual"

/-- Value of `TextCategory.VIOLENCE`. -/
def TextCategory.VIOLENCE : String := "Violence"

/-- A Python exception as the handlers observe it: an azure
`HttpResponseError` (optionally carrying a structured `e.error` with `code`
and `message`), or any other exception.  Both expose their `str(e)` form.
The werkzeug exceptions raised by `request.get_json()` and the built-in
`TypeError`/`KeyError` are `other`: none of them is an `HttpResponseError`. -/
inductive PyExc where
  | httpResponseError (strForm : String) (structured : Option (String × String))
  | other (strForm : String)

/-- Python `str(e)` of an exception. -/
def PyExc.toStr : PyExc → String
  | .httpResponseError s _ => s
  | .other s => s

/-- Outcome of the single outbound call
`await client.analyze_text(request_options)` (src/app.py:57): either the
service answers with a `categories_analysis` list, or the call raises. -/
inductive ServiceOutcome where
  | success (categories_analysis : List CategoryEntry)
  | raises (e : PyExc)

/-- An HTTP response: status code plus the JSON body handed to `jsonify`. -/
structure HttpResponse where
  status : Nat
  body : PyVal

/-- Result of running a handler, instrumented with whether the outbound
moderation call was issued on that run. -/
structure HandlerResult where
  response : HttpResponse
  outboundCalled : Bool

/-- The configuration error message built at src/app.py:44-45 (two adjacent
Python string literals, implicitly concatenated). -/
def configErrorMsg : String :=
  "Azure Content Safety credentials not configured. Set CONTENT_SAFETY_KEY and CONTENT_SAFETY_ENDPOINT environment variables."

/-- `next((item for item in response.categories_analysis if item.category == c), None)`
(src/app.py:61-64). -/
def findCategory (cats : List CategoryEntry) (c : String) : Option CategoryEntry :=
  cats.find? (fun item => item.category == c)

/-- An optional severity as the JSON value placed under `"severity"`. -/
def severityVal : Option Int → PyVal
  | Option.none => PyVal.none
  | some n => .int n

/-- Lines 69-77 of src/app.py: build the four-key dict whose values are
`{"severity": r.severity}` when the category entry was found and `None`
otherwise, then filter out the `None` values (`if v is not None` tests the
OUTER value, so a found entry with null severity is kept). -/
def normalizeResults (cats : List CategoryEntry) : PyVal :=
  let hate_result := findCategory cats TextCategory.HATE
  let self_harm_result := findCategory cats TextCategory.SELF_HARM
  let sexual_result := findCategory cats TextCategory.SEXUAL
  let violence_result := findCategory cats TextCategory.VIOLENCE
  let entry : Option CategoryEntry → Option PyVal :=
    fun r => r.map (fun item => PyVal.dict [("severity", severityVal item.severity)])
  let pairs : List (String × Option PyVal) :=
    [("hate", entry hate_result), ("selfHarm", entry self_harm_result),
     ("sexual", entry sexual_result), ("violence", entry violence_result)]
  PyVal.dict (pairs.filterMap (fun p => p.2.map (fun v => (p.1, v))))

/-- `analyze_content_safety` (src/app.py:30-86).  Its whole body sits inside
`try ... except Exception as e`, so every exception raised on the moderation
path -- the azure `HttpResponseError` included -- is caught HERE and turned
into `({"error": str(e)}, 500)`; the function always returns normally and
nothing propagates to the caller. -/
def analyze_content_safety (text : PyVal) (env : Env) (svc : ServiceOutcome) : HandlerResult :=
  let key := env.CONTENT_SAFETY_KEY
  let endpoint := env.CONTENT_SAFETY_ENDPOINT
  if !envTruthy key || !envTruthy endpoint then
    ⟨⟨500, .dict [("error", .str configErrorMsg)]⟩, false⟩
  else
    match svc with
    | .success cats =>
        ⟨⟨200, .dict [("text", text), ("results", normalizeResults cats)]⟩, true⟩
    | .raises e =>
        ⟨⟨500, .dict [("error", .str e.toStr)]⟩, true⟩

/-- What `request.get_json()` did (src/app.py:99): returned a parsed JSON
value, or raised -- a missing body, a wrong content type and malformed JSON
all raise a werkzeug exception carrying a message, and that exception is not
an azure `HttpResponseError`. -/
inductive BodyParse where
  | ok (v : PyVal)
  | failure (msg : String)

/-- The fixed validation error body of src/app.py:101. -/
def validationErrorBody : PyVal :=
  .dict [("error", .str "Request must include \x27text\x27 field")]

/-- The `try:` block of `content_text_safety` (src/app.py:97-108): either a
response, or the exception escaping the block.  Short-circuit order follows
`if not request_data or 'text' not in request_data`. -/
def content_text_safety_try (parse : BodyParse) (env : Env) (svc : ServiceOutcome) :
    Except PyExc HandlerResult :=
  match parse with
  | .failure msg => .error (.other msg)
  | .ok request_data =>
    if !pyTruthy request_data then
      .ok ⟨⟨400, validationErrorBody⟩, false⟩
    else
      match pyContainsStr request_data "text" with
      | .error msg => .error (.other msg)
      | .ok mem =>
        if !mem then
          .ok ⟨⟨400, validationErrorBody⟩, false⟩
        else
          match pySubscriptStr request_data "text" with
          | .error msg => .error (.other msg)
          | .ok text_to_analyze => .ok (analyze_content_safety text_to_analyze env svc)

/-- The `except` clauses of `content_text_safety` (src/app.py:110-125): an
`HttpResponseError` would get the detailed envelope with `details.code` and
`details.message`; every other exception is stringified into
`{"error": str(e)}` with status 500. -/
def content_text_safety_except (e : PyExc) : HttpResponse :=
  match e with
  | .httpResponseError _ structured =>
      ⟨500, .dict [("error", .str "Azure Content Safety API error"),
                   ("details",
                     match structured with
                     | some cm => .dict [("code", .str cm.1), ("message", .str cm.2)]
                     | Option.none => .dict [])]⟩
  | .other msg => ⟨500, .dict [("error", .str msg)]⟩

/-- The complete `content_text_safety` view function (src/app.py:89-125):
run the `try:` block and translate any escaping exception.  Every exception
in the block occurs before `analyze_content_safety` is entered, so the
outbound call was not issued on the exception path. -/
def content_text_safety (parse : BodyParse) (env : Env) (svc : ServiceOutcome) : HandlerResult :=
  match content_text_safety_try parse env svc with
  | .ok r => r
  | .error e => ⟨content_text_safety_except e, false⟩

/-- The f-string fragment `key[:5] if key else 'Not found'` printed at
src/app.py:39 (the only key-derived text on that line). -/
def apiKeyDiagFragment (key : Option String) : String :=
  match key with
  | some k => if !k.isEmpty then k.take 5 else "Not found"
  | Option.none => "Not found"

/-- The diagnostic line printed at src/app.py:39. -/
def apiKeyDiagLine (key : Option String) : String :=
  "API Key (first 5 chars): " ++ apiKeyDiagFragment key

/-- How an f-string renders an `os.environ.get` result (`None` when unset). -/
def fStringOpt : Option String → String
  | some s => s
  | Option.none => "None"

/-- The diagnostic line printed at src/app.py:40: the endpoint in full. -/
def endpointDiagLine (endpoint : Option String) : String :=
  "Endpoint: " ++ fStringOpt endpoint

/-- src/main.py:13 -- `os.environ.get("CONTENT_SAFETY_KEY", "Not found")`. -/
def bannerKey (key : Option String) : String :=
  key.getD "Not found"

/-- src/main.py:17 -- the startup banner line
`CONTENT_SAFETY_KEY: {key[:5]}... (truncated)`. -/
def bannerKeyLine (key : Option String) : String :=
  "CONTENT_SAFETY_KEY: " ++ (bannerKey key).take 5 ++ "... (truncated)"

/-- src/main.py:18 -- the startup banner line printing the endpoint in full. -/
def bannerEndpointLine (endpoint : Option String) : String :=
  "CONTENT_SAFETY_ENDPOINT: " ++ (endpoint.getD "Not found")

/-! ### Helper lemmas -/

theorem take_five_length_le (s : String) : (s.take 5).length ≤ 5 := by
  rw [String.take_eq]
  show (s.1.take 5).length ≤ 5
  rw [List.length_take]
  exact Nat.min_le_left _ _

theorem take_five_ne_of_long (s : String) (h : 5 < s.length) : s.take 5 ≠ s := by
  intro heq
  have hle := take_five_length_le s
  rw [heq] at hle
  omega

theorem any_key_iff_lookup (es : List (String × PyVal)) (k : String) :
    es.any (fun p => p.1 == k) = (es.lookup k).isSome := by
  induction es with
  | nil => rfl
  | cons p ps ih =>
    obtain ⟨a, b⟩ := p
    by_cases hak : a = k
    · subst hak
      simp [List.lookup]
    · have h1 : (a == k) = false := beq_eq_false_iff_ne.mpr hak
      have h2 : (k == a) = false := beq_eq_false_iff_ne.mpr (Ne.symm hak)
      simp [List.lookup, h1, h2, ih]

theorem run_with_text (es : List (String × PyVal)) (t : PyVal) (env : Env) (svc : ServiceOutcome)
    (h : es.lookup "text" = some t) :
    content_text_safety (.ok (.dict es)) env svc = analyze_content_safety t env svc := by
  have hne : es.isEmpty = false := by
    cases es with
    | nil => simp [List.lookup] at h
    | cons p ps => rfl
  have hany : es.any (fun p => p.1 == "text") = true := by
    rw [any_key_iff_lookup, h]
    rfl
  unfold content_text_safety content_text_safety_try pyContainsStr pySubscriptStr
  simp [pyTruthy, hne, hany, h]

theorem analyze_status_cases (text : PyVal) (env : Env) (svc : ServiceOutcome) :
    (analyze_content_safety text env svc).response.status = 200 ∨
    (analyze_content_safety text env svc).response.status = 500 := by
  unfold analyze_content_safety
  cases hk : envTruthy env.CONTENT_SAFETY_KEY <;>
    cases he : envTruthy env.CONTENT_SAFETY_ENDPOINT <;>
      cases svc <;> simp [hk, he]

theorem normalize_lookup_hate (cats : List CategoryEntry) :
    (normalizeResults cats).lookupKey "hate"
      = (findCategory cats TextCategory.HATE).map
          (fun r => PyVal.dict [("severity", severityVal r.severity)]) := by
  unfold normalizeResults
  cases hh : findCategory cats TextCategory.HATE <;>
    cases hs : findCategory cats TextCategory.SELF_HARM <;>
      cases hx : findCategory cats TextCategory.SEXUAL <;>
        cases hv : findCategory cats TextCategory.VIOLENCE <;> rfl

theorem normalize_lookup_selfHarm (cats : List CategoryEntry) :
    (normalizeResults cats).lookupKey "selfHarm"
      = (findCategory cats TextCategory.SELF_HARM).map
          (fun r => PyVal.dict [("severity", severityVal r.severity)]) := by
  unfold normalizeResults
  cases hh : findCategory cats TextCategory.HATE <;>
    cases hs : findCategory cats TextCategory.SELF_HARM <;>
      cases hx : findCategory cats TextCategory.SEXUAL <;>
        cases hv : findCategory cats TextCategory.VIOLENCE <;> rfl

theorem normalize_lookup_sexual (cats : List CategoryEntry) :
    (normalizeResults cats).lookupKey "sexual"
      = (findCategory cats TextCategory.SEXUAL).map
          (fun r => PyVal.dict [("severity", severityVal r.severity)]) := by
  unfold normalizeResults
  cases hh : findCategory cats TextCategory.HATE <;>
    cases hs : findCategory cats TextCategory.SELF_HARM <;>
      cases hx : findCategory cats TextCategory.SEXUAL <;>
        cases hv : findCategory cats TextCategory.VIOLENCE <;> rfl

theorem normalize_lookup_violence (cats : List CategoryEntry) :
    (normalizeResults cats).lookupKey "violence"
      = (findCategory cats TextCategory.VIOLENCE).map
          (fun r => PyVal.dict [("severity", severityVal r.severity)]) := by
  unfold normalizeResults
  cases hh : findCategory cats TextCategory.HATE <;>
    cases hs : findCategory cats TextCategory.SELF_HARM <;>
      cases hx : findCategory cats TextCategory.SEXUAL <;>
        cases hv : findCategory cats TextCategory.VIOLENCE <;> rfl

/-! ### Claims -/

/-- Claim C1 counterexample: when the request body is missing or not valid
JSON, `request.get_json()` raises, and the generic `except Exception`
handler at src/app.py:122 turns this into HTTP 500 carrying the stringified
exception -- not the claimed HTTP 400 with the fixed validation body. -/
theorem C1_counterexample :
    content_text_safety
        (.failure "400 Bad Request: the request body is not valid JSON")
        ⟨some "secret-key", some "https://example.cognitiveservices.azure.com"⟩
        (.success []) =
      ⟨⟨500, .dict [("error",
          .str "400 Bad Request: the request body is not valid JSON")]⟩, false⟩ ∧
    (content_text_safety
        (.failure "400 Bad Request: the request body is not valid JSON")
        ⟨some "secret-key", some "https://example.cognitiveservices.azure.com"⟩
        (.success [])).response.status ≠ 400 :=
  ⟨rfl, by decide⟩

/-- Claim C1 (amended): if the body parses as JSON and the parsed value is
falsy, or the membership test reports that "text" is absent, the response is
exactly HTTP 400 with the fixed error body and no further processing (in
particular no outbound call) occurs; a missing or non-JSON body instead
yields HTTP 500 carrying the stringified parse exception. -/
theorem C1_validation (v : PyVal) (msg : String) (env env2 : Env)
    (svc svc2 : ServiceOutcome)
    (h : pyTruthy v = false ∨ pyContainsStr v "text" = .ok false) :
    content_text_safety (.ok v) env svc = ⟨⟨400, validationErrorBody⟩, false⟩ ∧
    content_text_safety (.failure msg) env2 svc2 =
      ⟨⟨500, .dict [("error", .str msg)]⟩, false⟩ := by
  constructor
  · unfold content_text_safety content_text_safety_try
    rcases h with h | h
    · simp [h]
    · cases ht : pyTruthy v with
      | false => simp [ht]
      | true => simp [ht, h]
  · rfl

/-- Witness for C1 at the concrete falsy body `{}`. -/
theorem C1_validation_witness :
    pyTruthy (.dict []) = false ∧
    content_text_safety (.ok (.dict []))
        ⟨some "secret-key", some "https://example"⟩ (.success []) =
      ⟨⟨400, validationErrorBody⟩, false⟩ :=
  ⟨rfl, (C1_validation (.dict []) "boom" ⟨some "secret-key", some "https://example"⟩
      ⟨Option.none, Option.none⟩ (.success []) (.success []) (Or.inl rfl)).1⟩

/-- Claim C2: with a JSON object body containing "text", if either
credential is unset or empty then the response is HTTP 500 with exactly the
fixed configuration error body, and the outbound moderation call is not
attempted. -/
theorem C2_config_error (es : List (String × PyVal)) (t : PyVal) (env : Env)
    (svc : ServiceOutcome) (hmem : es.lookup "text" = some t)
    (hcred : envTruthy env.CONTENT_SAFETY_KEY = false ∨
             envTruthy env.CONTENT_SAFETY_ENDPOINT = false) :
    content_text_safety (.ok (.dict es)) env svc =
      ⟨⟨500, .dict [("error", .str configErrorMsg)]⟩, false⟩ := by
  rw [run_with_text es t env svc hmem]
  unfold analyze_content_safety
  rcases hcred with h | h <;> simp [h]

/-- Witness for C2 with the key unset. -/
theorem C2_config_error_witness :
    ([("text", PyVal.str "hello")].lookup "text" = some (PyVal.str "hello")) ∧
    envTruthy Option.none = false ∧
    content_text_safety (.ok (.dict [("text", .str "hello")]))
        ⟨Option.none, some "https://example"⟩ (.success []) =
      ⟨⟨500, .dict [("error", .str configErrorMsg)]⟩, false⟩ :=
  ⟨rfl, rfl, C2_config_error _ _ _ _ rfl (Or.inl rfl)⟩

/-- Claim C3: at the failing input -- a valid "text" body, configured
credentials, and the outbound call raising an `HttpResponseError` carrying
code and message -- the program answers HTTP 500 with the stringified
exception, because the blanket `except Exception` inside
`analyze_content_safety` (src/app.py:84) catches the `HttpResponseError`
first; the dedicated handler of src/app.py:110-120, whose envelope is shown
by the second conjunct, is never reached from the moderation path. -/
theorem C3_http_error_stringified :
    content_text_safety (.ok (.dict [("text", .str "hello")]))
        ⟨some "secret-key", some "https://example.cognitiveservices.azure.com"⟩
        (.raises (.httpResponseError
          "(InvalidRequestBody) The request body is invalid."
          (some ("InvalidRequestBody", "The request body is invalid.")))) =
      ⟨⟨500, .dict [("error",
          .str "(InvalidRequestBody) The request body is invalid.")]⟩, true⟩ ∧
    content_text_safety_except (.httpResponseError
          "(InvalidRequestBody) The request body is invalid."
          (some ("InvalidRequestBody", "The request body is invalid."))) =
      ⟨500, .dict [("error", .str "Azure Content Safety API error"),
                   ("details", .dict [("code", .str "InvalidRequestBody"),
                                      ("message", .str "The request body is invalid.")])]⟩ :=
  ⟨rfl, rfl⟩

/-- Claim C4: for each of the four fixed categories the normalized mapping
has the category key, bound to the object `severity = s` with `s` the first
matching entry's severity, exactly when the raw `categories_analysis` list
has a matching entry; and on the concrete response (hate severity 2,
violence severity 0, nothing else) the output is exactly the two-key object
of the claim, with selfHarm and sexual absent. -/
theorem C4_normalizer (cats : List CategoryEntry) :
    ((normalizeResults cats).lookupKey "hate"
      = (findCategory cats TextCategory.HATE).map
          (fun r => PyVal.dict [("severity", severityVal r.severity)])) ∧
    ((normalizeResults cats).lookupKey "selfHarm"
      = (findCategory cats TextCategory.SELF_HARM).map
          (fun r => PyVal.dict [("severity", severityVal r.severity)])) ∧
    ((normalizeResults cats).lookupKey "sexual"
      = (findCategory cats TextCategory.SEXUAL).map
          (fun r => PyVal.dict [("severity", severityVal r.severity)])) ∧
    ((normalizeResults cats).lookupKey "violence"
      = (findCategory cats TextCategory.VIOLENCE).map
          (fun r => PyVal.dict [("severity", severityVal r.severity)])) ∧
    normalizeResults [⟨TextCategory.HATE, some 2⟩, ⟨TextCategory.VIOLENCE, some 0⟩]
      = .dict [("hate", .dict [("severity", .int 2)]),
               ("violence", .dict [("severity", .int 0)])] :=
  ⟨normalize_lookup_hate cats, normalize_lookup_selfHarm cats,
   normalize_lookup_sexual cats, normalize_lookup_violence cats, rfl⟩

/-- Claim C5 counterexample: a raw response whose only entry is category
Hate with null severity.  The claim says the "hate" key is then omitted from
the normalized mapping; the code keeps it, bound to the object
`severity = null`, because the comprehension filter at src/app.py:77 tests
the outer value, not the severity inside it. -/
theorem C5_counterexample :
    (normalizeResults [⟨TextCategory.HATE, Option.none⟩]).lookupKey "hate"
      = some (.dict [("severity", PyVal.none)]) ∧
    normalizeResults [⟨TextCategory.HATE, Option.none⟩]
      = .dict [("hate", .dict [("severity", PyVal.none)])] :=
  ⟨rfl, rfl⟩

/-- Claim C5 (amended): the normalizer omits a category key exactly when the
raw list has no matching entry; an entry that is present with null severity
is kept, its key bound to the object `severity = null`. -/
theorem C5_null_severity (cats : List CategoryEntry) :
    (∀ e, findCategory cats TextCategory.HATE = some e → e.severity = Option.none →
      (normalizeResults cats).lookupKey "hate"
        = some (.dict [("severity", PyVal.none)])) ∧
    (∀ e, findCategory cats TextCategory.SELF_HARM = some e → e.severity = Option.none →
      (normalizeResults cats).lookupKey "selfHarm"
        = some (.dict [("severity", PyVal.none)])) ∧
    (∀ e, findCategory cats TextCategory.SEXUAL = some e → e.severity = Option.none →
      (normalizeResults cats).lookupKey "sexual"
        = some (.dict [("severity", PyVal.none)])) ∧
    (∀ e, findCategory cats TextCategory.VIOLENCE = some e → e.severity = Option.none →
      (normalizeResults cats).lookupKey "violence"
        = some (.dict [("severity", PyVal.none)])) ∧
    (findCategory cats TextCategory.HATE = Option.none →
      (normalizeResults cats).lookupKey "hate" = Option.none) := by
  refine ⟨?_, ?_, ?_, ?_, ?_⟩
  · intro e he hnull
    simp [normalize_lookup_hate, he, hnull, severityVal]
  · intro e he hnull
    simp [normalize_lookup_selfHarm, he, hnull, severityVal]
  · intro e he hnull
    simp [normalize_lookup_sexual, he, hnull, severityVal]
  · intro e he hnull
    simp [normalize_lookup_violence, he, hnull, severityVal]
  · intro h
    simp [normalize_lookup_hate, h]

/-- Witness for C5 at a raw list whose only entry is SelfHarm with null
severity. -/
theorem C5_null_severity_witness :
    findCategory [⟨TextCategory.SELF_HARM, Option.none⟩] TextCategory.SELF_HARM
        = some ⟨TextCategory.SELF_HARM, Option.none⟩ ∧
    (normalizeResults [⟨TextCategory.SELF_HARM, Option.none⟩]).lookupKey "selfHarm"
        = some (.dict [("severity", PyVal.none)]) :=
  ⟨rfl, (C5_null_severity _).2.1 ⟨TextCategory.SELF_HARM, Option.none⟩ rfl rfl⟩

/-- Claim C6: for an object body containing "text", the handler answers
with status 200 or 500 for every environment and every outcome of the
outbound call; the view is a total function of the embedding, so no
exception of the moderation path escapes the endpoint boundary. -/
theorem C6_status_total (es : List (String × PyVal)) (t : PyVal) (env : Env)
    (svc : ServiceOutcome) (h : es.lookup "text" = some t) :
    (content_text_safety (.ok (.dict es)) env svc).response.status = 200 ∨
    (content_text_safety (.ok (.dict es)) env svc).response.status = 500 := by
  rw [run_with_text es t env svc h]
  exact analyze_status_cases t env svc

/-- Witness for C6 at a concrete body with unset credentials. -/
theorem C6_status_total_witness :
    ([("text", PyVal.str "hi")].lookup "text" = some (PyVal.str "hi")) ∧
    ((content_text_safety (.ok (.dict [("text", .str "hi")]))
        ⟨Option.none, Option.none⟩ (.success [])).response.status = 200 ∨
     (content_text_safety (.ok (.dict [("text", .str "hi")]))
        ⟨Option.none, Option.none⟩ (.success [])).response.status = 500) :=
  ⟨rfl, C6_status_total _ _ _ _ rfl⟩

/-- Claim C7 counterexample: the body whose "text" key is null, with
configured credentials and a successful outbound call, yields HTTP 200 and
the outbound call IS issued: the request is neither rejected with 400 nor
stopped before the call, because validation only checks key presence. -/
theorem C7_counterexample :
    content_text_safety (.ok (.dict [("text", PyVal.none)]))
        ⟨some "secret-key", some "https://example"⟩ (.success []) =
      ⟨⟨200, .dict [("text", PyVal.none), ("results", .dict [])]⟩, true⟩ ∧
    (content_text_safety (.ok (.dict [("text", PyVal.none)]))
        ⟨some "secret-key", some "https://example"⟩
        (.success [])).response.status ≠ 400 ∧
    (content_text_safety (.ok (.dict [("text", PyVal.none)]))
        ⟨some "secret-key", some "https://example"⟩
        (.success [])).outboundCalled = true :=
  ⟨rfl, by decide, rfl⟩

/-- Claim C7 (amended): an object body containing the key "text" with value
null passes validation and proceeds to the moderation path exactly as any
other value; it is never answered with HTTP 400. -/
theorem C7_null_text_passes (es : List (String × PyVal)) (env : Env)
    (svc : ServiceOutcome) (h : es.lookup "text" = some PyVal.none) :
    content_text_safety (.ok (.dict es)) env svc
        = analyze_content_safety PyVal.none env svc ∧
    (content_text_safety (.ok (.dict es)) env svc).response.status ≠ 400 := by
  have hr := run_with_text es PyVal.none env svc h
  refine ⟨hr, ?_⟩
  rw [hr]
  rcases analyze_status_cases PyVal.none env svc with h2 | h2 <;> omega

/-- Witness for C7 at the concrete body whose "text" is null. -/
theorem C7_null_text_passes_witness :
    ([("text", PyVal.none)].lookup "text" = some PyVal.none) ∧
    (content_text_safety (.ok (.dict [("text", PyVal.none)]))
        ⟨some "k1234567", some "https://example"⟩
        (.success [])).response.status ≠ 400 :=
  ⟨rfl, (C7_null_text_passes [("text", PyVal.none)]
      ⟨some "k1234567", some "https://example"⟩ (.success []) rfl).2⟩

/-- Claim C8: the diagnostic fragments derived from the key are at most its
first five characters -- in particular they never equal a key longer than
five characters -- while both endpoint lines carry the endpoint in full. -/
theorem C8_key_truncation (k e : String) (hk : k.isEmpty = false)
    (hlen : 5 < k.length) :
    apiKeyDiagFragment (some k) = k.take 5 ∧
    (apiKeyDiagFragment (some k)).length ≤ 5 ∧
    apiKeyDiagFragment (some k) ≠ k ∧
    apiKeyDiagLine (some k) = "API Key (first 5 chars): " ++ k.take 5 ∧
    bannerKeyLine (some k) = "CONTENT_SAFETY_KEY: " ++ k.take 5 ++ "... (truncated)" ∧
    (bannerKey (some k)).take 5 ≠ k ∧
    apiKeyDiagFragment Option.none = "Not found" ∧
    endpointDiagLine (some e) = "Endpoint: " ++ e ∧
    bannerEndpointLine (some e) = "CONTENT_SAFETY_ENDPOINT: " ++ e := by
  have hfrag : apiKeyDiagFragment (some k) = k.take 5 := by
    simp [apiKeyDiagFragment, hk]
  refine ⟨hfrag, ?_, ?_, ?_, rfl, ?_, rfl, rfl, rfl⟩
  · rw [hfrag]
    exact take_five_length_le k
  · rw [hfrag]
    exact take_five_ne_of_long k hlen
  · unfold apiKeyDiagLine
    rw [hfrag]
  · show k.take 5 ≠ k
    exact take_five_ne_of_long k hlen

/-- Witness for C8 at an eight-character key. -/
theorem C8_key_truncation_witness :
    ("abcdefgh" : String).isEmpty = false ∧ 5 < ("abcdefgh" : String).length ∧
    apiKeyDiagFragment (some "abcdefgh") ≠ "abcdefgh" ∧
    apiKeyDiagFragment (some "abcdefgh") = "abcde" :=
  ⟨rfl, by decide,
   (C8_key_truncation "abcdefgh" "https://example" rfl (by decide)).2.2.1, rfl⟩

/-- Claim C9: on a successful moderation call the HTTP 200 body's "text"
field is exactly the "text" value taken from the request body. -/
theorem C9_text_echoed (es : List (String × PyVal)) (t : PyVal) (env : Env)
    (cats : List CategoryEntry) (h : es.lookup "text" = some t)
    (hk : envTruthy env.CONTENT_SAFETY_KEY = true)
    (he : envTruthy env.CONTENT_SAFETY_ENDPOINT = true) :
    (content_text_safety (.ok (.dict es)) env (.success cats)).response.status = 200 ∧
    ((content_text_safety (.ok (.dict es)) env
        (.success cats)).response.body).lookupKey "text" = some t := by
  rw [run_with_text es t env (.success cats) h]
  unfold analyze_content_safety
  simp [hk, he, PyVal.lookupKey, List.lookup]

/-- Witness for C9 at a concrete request. -/
theorem C9_text_echoed_witness :
    ([("text", PyVal.str "hello world")].lookup "text"
        = some (PyVal.str "hello world")) ∧
    envTruthy (some "secret-key") = true ∧
    ((content_text_safety (.ok (.dict [("text", .str "hello world")]))
        ⟨some "secret-key", some "https://example"⟩
        (.success [⟨TextCategory.HATE, some 2⟩])).response.body).lookupKey "text"
      = some (.str "hello world") :=
  ⟨rfl, rfl, (C9_text_echoed [("text", PyVal.str "hello world")]
      (PyVal.str "hello world") ⟨some "secret-key", some "https://example"⟩
      [⟨TextCategory.HATE, some 2⟩] rfl rfl rfl).2⟩

/-- Claim C10: the JSON string body "textbook" is valid JSON without a
"text" field, yet the membership test succeeds as a substring check, the
subsequent indexing raises `TypeError`, and the generic exception handler
answers HTTP 500 -- not HTTP 400 -- for every environment and every service
outcome. -/
theorem C10_string_body (env : Env) (svc : ServiceOutcome) :
    pyStrContains "textbook" "text" = true ∧
    content_text_safety (.ok (.str "textbook")) env svc =
      ⟨⟨500, .dict [("error", .str "string indices must be integers")]⟩, false⟩ ∧
    (content_text_safety (.ok (.str "textbook")) env svc).response.status ≠ 400 := by
  refine ⟨rfl, rfl, ?_⟩
  show (500 : Nat) ≠ 400
  decide

end ModerationRelay
